import Mathlib

/-!
  # Verification of the NEAR MPC transfer flow

  Shallow embedding of `executeNearTransferWithMPC` (src/src/index.ts) of the
  Ed25519example repository, together with the library helpers the flow relies
  on (`parseNearAmount`, borsh serialization of the NEAR `Transaction` schema,
  base58 decoding, `PublicKey.fromString`, SHA-256).

  Network interactions (RPC reads, the MPC service, broadcast) are modelled as
  an environment `Env` of oracle answers; every network interaction the flow
  performs is recorded in an event trace, so ordering claims ("before any
  network call", "immediately before requesting the signature") become
  statements about the trace.
-/

set_option maxRecDepth 10000

namespace Near

/-! ## Byte-level utilities -/

/-- Little-endian byte encoding of `n` in exactly `w` bytes (borsh integers). -/
def leBytes : Nat → Nat → List Nat
  | 0, _ => []
  | w + 1, n => n % 256 :: leBytes w (n / 256)

/-- Big-endian byte encoding of `n` in exactly `w` bytes. -/
def beBytes (w n : Nat) : List Nat := (leBytes w n).reverse

/-- Minimal big-endian byte string of `n` (fuel-driven so it evaluates). -/
def natToBEBytesAux : Nat → Nat → List Nat
  | 0, _ => []
  | fuel + 1, n => if n = 0 then [] else natToBEBytesAux fuel (n / 256) ++ [n % 256]

/-- Minimal big-endian byte string of `n`; empty for `0` (as bs58 does). -/
def natToBEBytes (n : Nat) : List Nat := natToBEBytesAux n n

/-- Decimal string to number, as JavaScript `BigInt(s)` on a digit string. -/
def strToNat (s : String) : Nat :=
  s.data.foldl (fun n c => n * 10 + (c.toNat - 48)) 0

/-- UTF-8 encoding of one character. -/
def utf8Char (c : Char) : List Nat :=
  let n := c.toNat
  if n < 128 then [n]
  else if n < 2048 then [192 + n / 64, 128 + n % 64]
  else if n < 65536 then [224 + n / 4096, 128 + (n / 64) % 64, 128 + n % 64]
  else [240 + n / 262144, 128 + (n / 4096) % 64, 128 + (n / 64) % 64, 128 + n % 64]

/-- UTF-8 encoding of a string. -/
def utf8Bytes (s : String) : List Nat :=
  s.data.foldr (fun c acc => utf8Char c ++ acc) []

/-- Split a character list at every occurrence of `sep`, as JavaScript
`String.prototype.split` with a single-character separator. -/
def splitChar (sep : Char) : List Char → List (List Char)
  | [] => [[]]
  | c :: rest =>
    let r := splitChar sep rest
    if c = sep then [] :: r
    else
      match r with
      | [] => [[c]]
      | h :: t => (c :: h) :: t

/-- JavaScript whitespace test for `trim` (ASCII portion, which is all the
flow's inputs can contain). -/
def isWsp (c : Char) : Bool :=
  c == ' ' || c.toNat == 9 || c.toNat == 10 || c.toNat == 11 ||
  c.toNat == 12 || c.toNat == 13

/-- JavaScript `String.prototype.trim` on a character list. -/
def jsTrim (l : List Char) : List Char :=
  ((l.dropWhile isWsp).reverse.dropWhile isWsp).reverse

/-! ## SHA-256 (crypto.createHash('sha256')) -/

/-- Modulus for 32-bit words. -/
def w32m : Nat := 4294967296

/-- Right rotation of a 32-bit word by `k`. -/
def rotr32 (k x : Nat) : Nat := (x / 2 ^ k + x % 2 ^ k * 2 ^ (32 - k)) % w32m

/-- Logical right shift of a 32-bit word by `k`. -/
def shr32 (k x : Nat) : Nat := x / 2 ^ k

/-- Three-way xor. -/
def xor3 (a b c : Nat) : Nat := Nat.xor (Nat.xor a b) c

/-- SHA-256 Σ0. -/
def bigSigma0 (x : Nat) : Nat := xor3 (rotr32 2 x) (rotr32 13 x) (rotr32 22 x)

/-- SHA-256 Σ1. -/
def bigSigma1 (x : Nat) : Nat := xor3 (rotr32 6 x) (rotr32 11 x) (rotr32 25 x)

/-- SHA-256 σ0. -/
def smallSigma0 (x : Nat) : Nat := xor3 (rotr32 7 x) (rotr32 18 x) (shr32 3 x)

/-- SHA-256 σ1. -/
def smallSigma1 (x : Nat) : Nat := xor3 (rotr32 17 x) (rotr32 19 x) (shr32 10 x)

/-- SHA-256 choose function. -/
def chF (x y z : Nat) : Nat :=
  Nat.xor (Nat.land x y) (Nat.land (Nat.xor x 4294967295) z)

/-- SHA-256 majority function. -/
def majF (x y z : Nat) : Nat :=
  Nat.xor (Nat.xor (Nat.land x y) (Nat.land x z)) (Nat.land y z)

/-- SHA-256 round constants. -/
def shaK : List Nat :=
  [1116352408, 1899447441, 3049323471, 3921009573, 961987163,
   1508970993, 2453635748, 2870763221, 3624381080, 310598401,
   607225278, 1426881987, 1925078388, 2162078206, 2614888103,
   3248222580, 3835390401, 4022224774, 264347078, 604807628,
   770255983, 1249150122, 1555081692, 1996064986, 2554220882,
   2821834349, 2952996808, 3210313671, 3336571891, 3584528711,
   113926993, 338241895, 666307205, 773529912, 1294757372,
   1396182291, 1695183700, 1986661051, 2177026350, 2456956037,
   2730485921, 2820302411, 3259730800, 3345764771, 3516065817,
   3600352804, 4094571909, 275423344, 430227734, 506948616,
   659060556, 883997877, 958139571, 1322822218, 1537002063,
   1747873779, 1955562222, 2024104815, 2227730452, 2361852424,
   2428436474, 2756734187, 3204031479, 3329325298]

/-- The eight 32-bit chaining words of a SHA-256 state. -/
structure Hash8 where
  h0 : Nat
  h1 : Nat
  h2 : Nat
  h3 : Nat
  h4 : Nat
  h5 : Nat
  h6 : Nat
  h7 : Nat
deriving DecidableEq

/-- The eight working registers of the SHA-256 compression loop. -/
structure Regs where
  a : Nat
  b : Nat
  c : Nat
  d : Nat
  e : Nat
  f : Nat
  g : Nat
  h : Nat
deriving DecidableEq

/-- One SHA-256 compression round, consuming a (constant, schedule word) pair. -/
def shaRound (r : Regs) (kw : Nat × Nat) : Regs :=
  let t1 := (r.h + bigSigma1 r.e + chF r.e r.f r.g + kw.1 + kw.2) % w32m
  let t2 := (bigSigma0 r.a + majF r.a r.b r.c) % w32m
  ⟨(t1 + t2) % w32m, r.a, r.b, r.c, (r.d + t1) % w32m, r.e, r.f, r.g⟩

/-- Group a byte list into big-endian 32-bit words. -/
def wordsBE : List Nat → List Nat
  | b0 :: b1 :: b2 :: b3 :: rest =>
    (((b0 * 256 + b1) * 256 + b2) * 256 + b3) :: wordsBE rest
  | _ => []

/-- One step of the message-schedule extension. -/
def schedStep (w : List Nat) (_ : Nat) : List Nat :=
  let n := w.length
  w ++ [(smallSigma1 (w.getD (n - 2) 0) + w.getD (n - 7) 0 +
         smallSigma0 (w.getD (n - 15) 0) + w.getD (n - 16) 0) % w32m]

/-- Extend 16 message words to the 64-word SHA-256 schedule. -/
def schedule (w16 : List Nat) : List Nat := (List.range 48).foldl schedStep w16

/-- Compress one 64-byte block into the chaining state. -/
def shaCompress (H : Hash8) (block : List Nat) : Hash8 :=
  let w := schedule (wordsBE block)
  let r0 : Regs := ⟨H.h0, H.h1, H.h2, H.h3, H.h4, H.h5, H.h6, H.h7⟩
  let r := (shaK.zip w).foldl shaRound r0
  ⟨(H.h0 + r.a) % w32m, (H.h1 + r.b) % w32m, (H.h2 + r.c) % w32m,
   (H.h3 + r.d) % w32m, (H.h4 + r.e) % w32m, (H.h5 + r.f) % w32m,
   (H.h6 + r.g) % w32m, (H.h7 + r.h) % w32m⟩

/-- SHA-256 padding: `0x80`, zeros to 56 mod 64, then the 64-bit bit length. -/
def sha256Pad (msg : List Nat) : List Nat :=
  let L := msg.length
  let k := (119 - L % 64) % 64
  msg ++ [128] ++ List.replicate k 0 ++ beBytes 8 (8 * L)

/-- Cut a byte list into 64-byte blocks (fuel-driven so it evaluates). -/
def chunks64Aux : Nat → List Nat → List (List Nat)
  | 0, _ => []
  | _, [] => []
  | fuel + 1, l => l.take 64 :: chunks64Aux fuel (l.drop 64)

/-- Cut a byte list into 64-byte blocks. -/
def chunks64 (l : List Nat) : List (List Nat) := chunks64Aux l.length l

/-- SHA-256 initial chaining state. -/
def sha256InitH : Hash8 :=
  ⟨1779033703, 3144134277, 1013904242, 2773480762,
   1359893119, 2600822924, 528734635, 1541459225⟩

/-- SHA-256 of a byte list, emitting the 32 digest bytes. -/
def sha256 (msg : List Nat) : List Nat :=
  let Hf := (chunks64 (sha256Pad msg)).foldl shaCompress sha256InitH
  beBytes 4 Hf.h0 ++ beBytes 4 Hf.h1 ++ beBytes 4 Hf.h2 ++ beBytes 4 Hf.h3 ++
  beBytes 4 Hf.h4 ++ beBytes 4 Hf.h5 ++ beBytes 4 Hf.h6 ++ beBytes 4 Hf.h7

/-! ## base58 decoding (near-api-js `base_decode`, i.e. bs58) -/

/-- The bitcoin base58 alphabet used by bs58. -/
def b58Alphabet : List Char :=
  "123456789ABCDEFGHJKLMNPQRSTUVWXYZabcdefghijkmnopqrstuvwxyz".data

/-- Digit value of one base58 character; `none` for a character outside the
alphabet (bs58 throws there). -/
def b58Index (c : Char) : Option Nat := b58Alphabet.findIdx? (· = c)

/-- bs58 decoding: leading `1`s become leading zero bytes, the rest is the
big-endian byte string of the base-58 value; `none` on an invalid character. -/
def baseDecode (s : String) : Option (List Nat) :=
  let chars := s.data
  let val :=
    chars.foldl (fun acc c => acc.bind (fun n => (b58Index c).map (n * 58 + ·)))
      (some 0)
  match val with
  | none => none
  | some n =>
    some (List.replicate (chars.takeWhile (· = '1')).length 0 ++ natToBEBytes n)

/-! ## Error taxonomy

Each constructor corresponds to one `throw` site of the source (or of a
library helper the source calls); the flow never throws anything else. -/

/-- Failures of the flow, one constructor per source throw site. -/
inductive Error where
  /-- 'ACCOUNT_ID and PRIVATE_KEY must be set in .env file' -/
  | envMissing : Error
  /-- `parseNearAmount` throw: 'Cannot parse ... as NEAR amount' -/
  | cannotParseAmount (s : String) : Error
  /-- 'Invalid amount: ...' (the `!amountInYocto` guard) -/
  | invalidAmount (s : String) : Error
  /-- `PublicKey.fromString` throw on a malformed `<curve>:<data>` string -/
  | invalidEncodedKeyFormat (s : String) : Error
  /-- `PublicKey.fromString` throw on an unknown curve prefix -/
  | unknownCurve (s : String) : Error
  /-- bs58 throw on an invalid base58 character -/
  | base58Error (s : String) : Error
  /-- 'Cannot proceed without derived account' (bootstrap failure; the spec
  taxonomy calls this `BootstrapFailed`) -/
  | cannotProceedWithoutDerivedAccount : Error
  /-- 'Invalid MPC signature received' -/
  | invalidMPCSignature : Error
deriving DecidableEq

/-! ## near-api-js amount parsing (`parseNearAmount`) -/

/-- `cleanupAmount`: strip commas, then trim. -/
def cleanupAmount (s : String) : List Char := jsTrim (s.data.filter (· ≠ ','))

/-- `trimLeadingZeroes`: drop leading zeros, `"0"` if nothing remains. -/
def trimLeadingZeroes (l : List Char) : List Char :=
  let t := l.dropWhile (· = '0')
  if t = [] then ['0'] else t

/-- Pad the fractional part on the right with zeros to 24 digits
(`NEAR_NOMINATION_EXP = 24`). -/
def padFrac24 (l : List Char) : List Char :=
  l ++ List.replicate (24 - l.length) '0'

/-- near-api-js `parseNearAmount`: `none` on a falsy input, a throw (modelled
as `Except.error`) on more than one dot or a too-long fraction, otherwise the
yoctoNEAR amount as a decimal string. -/
def parseNearAmount (amt : String) : Except Error (Option String) :=
  if amt = "" then .ok none
  else
    let a := cleanupAmount amt
    let parts := splitChar '.' a
    let whole := parts.headD []
    let frac := (parts.drop 1).headD []
    if parts.length > 2 ∨ frac.length > 24 then
      .error (.cannotParseAmount (String.mk a))
    else
      .ok (some (String.mk (trimLeadingZeroes (whole ++ padFrac24 frac))))

/-! ## Public keys (`@near-js/crypto`) -/

/-- A NEAR public key: key-type tag (0 = Ed25519, 1 = secp256k1) and raw
key bytes. -/
structure PublicKey where
  keyType : Nat
  data : List Nat
deriving DecidableEq

/-- ASCII lowercase, as JavaScript `toLowerCase` on ASCII input. -/
def lowerChar (c : Char) : Char :=
  if 65 ≤ c.toNat ∧ c.toNat ≤ 90 then Char.ofNat (c.toNat + 32) else c

/-- `str_to_key_type`: curve name to key-type tag, case-insensitively. -/
def strToKeyType (s : List Char) : Except Error Nat :=
  match String.mk (s.map lowerChar) with
  | "ed25519" => .ok 0
  | "secp256k1" => .ok 1
  | t => .error (.unknownCurve t)

/-- `PublicKey.fromString`: optional `<curve>:` prefix (Ed25519 when absent),
base58 key data. -/
def publicKeyFromString (s : String) : Except Error PublicKey :=
  match splitChar ':' s.data with
  | [pk] =>
    match baseDecode (String.mk pk) with
    | none => .error (.base58Error (String.mk pk))
    | some d => .ok ⟨0, d⟩
  | [curve, pk] =>
    match strToKeyType curve with
    | .error e => .error e
    | .ok kt =>
      match baseDecode (String.mk pk) with
      | none => .error (.base58Error (String.mk pk))
      | some d => .ok ⟨kt, d⟩
  | _ => .error (.invalidEncodedKeyFormat s)

/-! ## Transactions and signatures (near-api-js `transactions`) -/

/-- A transaction action; only the value-transfer action occurs in this flow.
The deposit is the yoctoNEAR amount (u128 on the wire). -/
inductive Action where
  | transfer (deposit : Nat) : Action
deriving DecidableEq

/-- The unsigned NEAR transaction, fields in the borsh schema order. -/
structure Transaction where
  signerId : String
  publicKey : PublicKey
  nonce : Nat
  receiverId : String
  blockHash : List Nat
  actions : List Action
deriving DecidableEq

/-- `transactions.createTransaction`, argument order as in the source. -/
def createTransaction (signerId : String) (publicKey : PublicKey)
    (receiverId : String) (nonce : Nat) (actions : List Action)
    (blockHash : List Nat) : Transaction :=
  ⟨signerId, publicKey, nonce, receiverId, blockHash, actions⟩

/-- A transaction signature: key-type tag and raw signature bytes. -/
structure Signature where
  keyType : Nat
  data : List Nat
deriving DecidableEq

/-- `transactions.SignedTransaction`. -/
structure SignedTransaction where
  transaction : Transaction
  signature : Signature
deriving DecidableEq

/-- Step 4 of the source: `new SignedTransaction({transaction, signature:
new Signature({keyType: 0, data})})` — the key type is hard-coded to
Ed25519 (0) and nothing is validated. -/
def attachSignature (tx : Transaction) (signatureBytes : List Nat) :
    SignedTransaction :=
  { transaction := tx, signature := { keyType := 0, data := signatureBytes } }

/-! ## borsh serialization of the `Transaction` schema -/

/-- borsh string: u32 little-endian byte length, then the UTF-8 bytes. -/
def serString (s : String) : List Nat :=
  leBytes 4 (utf8Bytes s).length ++ utf8Bytes s

/-- borsh public key: key-type tag byte, then the raw key bytes. -/
def serPublicKey (pk : PublicKey) : List Nat := pk.keyType % 256 :: pk.data

/-- borsh action: enum tag (Transfer = 3), then the u128 deposit. -/
def serAction : Action → List Nat
  | .transfer deposit => 3 :: leBytes 16 deposit

/-- Concatenated serialization of an action list. -/
def actionsBytes (l : List Action) : List Nat :=
  l.foldr (fun a acc => serAction a ++ acc) []

/-- `nearUtils.serialize.serialize(transactions.SCHEMA.Transaction, tx)`:
deterministic borsh encoding of the unsigned transaction. -/
def serializeTransaction (tx : Transaction) : List Nat :=
  serString tx.signerId ++ serPublicKey tx.publicKey ++ leBytes 8 tx.nonce ++
  serString tx.receiverId ++ tx.blockHash ++
  leBytes 4 tx.actions.length ++ actionsBytes tx.actions

/-! ## Environment: oracle answers for every external interaction -/

/-- Result of an `access_key/...` RPC query: current nonce and a recent block
hash, base58-encoded as the RPC returns it. -/
structure AccessKeyView where
  nonce : Nat
  block_hash : String
deriving DecidableEq

/-- One entry of the MPC `sign` response; `signature` is `none` when the
field is absent (a falsy value in the source's guard). -/
structure MPCSigEntry where
  signature : Option (List Nat)
deriving DecidableEq

/-- Outcome of `provider.sendTransaction`. -/
structure SendOutcome where
  hash : String
  gas_burnt : Nat
deriving DecidableEq

/-- Oracle answers for the bootstrap step: whether the derived account is
visible to the first balance read, whether `createAccount` succeeds, and
whether the account is visible to the post-creation re-read. -/
structure BootEnv where
  visibleFirst : Bool
  createOk : Bool
  visibleReRead : Bool
deriving DecidableEq

/-- The ambient world of one flow execution: environment variables, RPC
answers, the MPC service's answers, and the ledger's account set. -/
structure Env where
  accountId : String
  privateKey : String
  controllerPublicKey : PublicKey
  controllerAccessKey : AccessKeyView
  derivedPublicKeyStr : String
  ledger : List String
  boot : BootEnv
  derivedAccessKey : AccessKeyView
  mpcResponse : List MPCSigEntry
  sendResult : SendOutcome
deriving DecidableEq

/-- The flow's input record (src `NearTransferRequest`). -/
structure NearTransferRequest where
  to_ : String
  amount : String
  memo : Option String
deriving DecidableEq

/-- The flow's return record. -/
structure FlowResult where
  success : Bool
  transactionHash : String
  gasUsed : Nat
  keyType : String
  signatureType : String
deriving DecidableEq

/-- Network interactions, in the order the flow performs them. -/
inductive Event where
  /-- `getAccountBalance` on an account -/
  | accountBalance (id : String) : Event
  /-- `provider.query('access_key/...')` -/
  | accessKeyQuery (id : String) (pk : PublicKey) : Event
  /-- `contract.getDerivedPublicKey({path, predecessor})` -/
  | mpcGetDerivedPublicKey (path : String) (predecessor : String) : Event
  /-- `controllerAccount.createAccount(id, pk, funding)` -/
  | createAccount (id : String) (pk : PublicKey) (funding : Nat) : Event
  /-- `setTimeout` pause of `ms` milliseconds -/
  | delay (ms : Nat) : Event
  /-- `contract.sign({payloads, ...})` -/
  | mpcSign (payloads : List (List Nat)) : Event
  /-- `provider.sendTransaction` -/
  | sendTransaction (tx : SignedTransaction) : Event
deriving DecidableEq

/-! ## Derived-account bootstrap (source lines 109-148) -/

/-- `parseNearAmount('1')!` — the fixed 1-NEAR funding of a fresh derived
account. -/
def oneNearYocto : Nat := 1000000000000000000000000

instance {ε α : Type} [DecidableEq ε] [DecidableEq α] :
    DecidableEq (Except ε α) := fun a b =>
  match a, b with
  | .ok x, .ok y => decidable_of_iff (x = y) (by simp)
  | .error x, .error y => decidable_of_iff (x = y) (by simp)
  | .ok _, .error _ => isFalse (by simp)
  | .error _, .ok _ => isFalse (by simp)

/-- Result of the bootstrap step: the ledger's account set afterwards, the
network events performed, and success or failure. -/
structure BootResult where
  ledger : List String
  events : List Event
  result : Except Error Unit
deriving DecidableEq

/-- The existence-check-then-create block of the source: read the derived
account's balance; on failure, create and fund it through the controller,
wait 3000 ms for propagation, and re-read once; give up with the source's
'Cannot proceed without derived account' error if that still fails. The
ledger mutates exactly when an on-chain creation succeeds (creating an
account that already exists is rejected by the ledger). -/
def ensureDerivedAccount (ledger : List String) (e : BootEnv)
    (derivedAccountId : String) (mpcPublicKey : PublicKey) : BootResult :=
  if derivedAccountId ∈ ledger ∧ e.visibleFirst then
    ⟨ledger, [.accountBalance derivedAccountId], .ok ()⟩
  else if derivedAccountId ∈ ledger then
    ⟨ledger,
     [.accountBalance derivedAccountId,
      .createAccount derivedAccountId mpcPublicKey oneNearYocto],
     .error .cannotProceedWithoutDerivedAccount⟩
  else if e.createOk then
    ⟨derivedAccountId :: ledger,
     [.accountBalance derivedAccountId,
      .createAccount derivedAccountId mpcPublicKey oneNearYocto,
      .delay 3000, .accountBalance derivedAccountId],
     if e.visibleReRead then .ok () else .error .cannotProceedWithoutDerivedAccount⟩
  else
    ⟨ledger,
     [.accountBalance derivedAccountId,
      .createAccount derivedAccountId mpcPublicKey oneNearYocto],
     .error .cannotProceedWithoutDerivedAccount⟩

/-! ## The full flow (`executeNearTransferWithMPC`) -/

/-- The `signature[0]` / `.signature` presence checks of step 3 (source lines
222-233): the decoded signature bytes, or `none` when the first response
entry or its `signature` field is absent. -/
def decodeMPC (resp : List MPCSigEntry) : Option (List Nat) :=
  resp.head?.bind (fun e => e.signature)

/-- Shallow embedding of `executeNearTransferWithMPC`: returns the trace of
network events together with the result. Mirrors the source line by line;
the one discarded intermediate (`serializedTx`, the serialization of the
controller-account transaction that is built and then replaced) is kept as a
dead binding, as in the source. -/
def executeNearTransferWithMPC (request : NearTransferRequest) (env : Env) :
    List Event × Except Error FlowResult :=
  if env.accountId = "" ∨ env.privateKey = "" then ([], .error .envMissing)
  else
    let accountId := env.accountId
    -- `controllerAccount.getAccountBalance()` — the first network call
    let ev0 := [Event.accountBalance accountId]
    match parseNearAmount request.amount with
    | .error e => (ev0, .error e)
    | .ok none => (ev0, .error (.invalidAmount request.amount))
    | .ok (some amountInYocto) =>
      let ev1 := ev0 ++ [Event.accessKeyQuery accountId env.controllerPublicKey]
      match baseDecode env.controllerAccessKey.block_hash with
      | none => (ev1, .error (.base58Error env.controllerAccessKey.block_hash))
      | some recentBlockHash =>
        let actions := [Action.transfer (strToNat amountInYocto)]
        let transaction := createTransaction accountId env.controllerPublicKey
          request.to_ (env.controllerAccessKey.nonce + 1) actions recentBlockHash
        let _serializedTx := serializeTransaction transaction
        let ev2 := ev1 ++ [Event.mpcGetDerivedPublicKey "near-1" accountId]
        match publicKeyFromString env.derivedPublicKeyStr with
        | .error e => (ev2, .error e)
        | .ok mpcPublicKey =>
          let derivedAccountId := "near-1." ++ accountId
          let boot := ensureDerivedAccount env.ledger env.boot derivedAccountId
            mpcPublicKey
          let ev3 := ev2 ++ boot.events
          match boot.result with
          | .error e => (ev3, .error e)
          | .ok _ =>
            let ev4 := ev3 ++ [Event.accessKeyQuery derivedAccountId mpcPublicKey]
            match baseDecode env.derivedAccessKey.block_hash with
            | none =>
              (ev4, .error (.base58Error env.derivedAccessKey.block_hash))
            | some derivedRecentBlockHash =>
              let nextNonce := env.derivedAccessKey.nonce + 1
              let mpcTransaction := createTransaction derivedAccountId
                mpcPublicKey request.to_ nextNonce actions derivedRecentBlockHash
              let mpcSerializedTx := serializeTransaction mpcTransaction
              let transactionHash := sha256 mpcSerializedTx
              let hashesToSign := [transactionHash]
              let ev5 := ev4 ++ [Event.mpcSign hashesToSign]
              match decodeMPC env.mpcResponse with
              | none => (ev5, .error .invalidMPCSignature)
              | some signatureBytes =>
                let signedTransaction :=
                  attachSignature mpcTransaction signatureBytes
                let ev6 := ev5 ++ [Event.sendTransaction signedTransaction]
                (ev6, .ok
                  { success := true,
                    transactionHash := env.sendResult.hash,
                    gasUsed := env.sendResult.gas_burnt,
                    keyType := "ed25519",
                    signatureType := "mpc" })

/-! ## Trace projections -/

/-- The transactions broadcast in a trace. -/
def sentTxs (ev : List Event) : List SignedTransaction :=
  ev.filterMap (fun e =>
    match e with
    | .sendTransaction st => some st
    | _ => none)

/-- The payload lists submitted to the MPC service in a trace. -/
def signEvents (ev : List Event) : List (List (List Nat)) :=
  ev.filterMap (fun e =>
    match e with
    | .mpcSign pl => some pl
    | _ => none)

/-- The create-account calls in a trace. -/
def createEvents (ev : List Event) : List String :=
  ev.filterMap (fun e =>
    match e with
    | .createAccount id _ _ => some id
    | _ => none)

/-! ## Concrete worlds used by the witnesses and counterexamples -/

/-- The request of the source's `main`. -/
def req0 : NearTransferRequest := ⟨"receiver.testnet", "0.01", some "MPC pattern demo"⟩

/-- A well-behaved world: the derived account already exists and the MPC
service answers with a present 64-byte signature. -/
def env0 : Env :=
  { accountId := "alice.testnet"
    privateKey := "ed25519:key"
    controllerPublicKey := ⟨0, List.replicate 32 1⟩
    controllerAccessKey := ⟨41, "11111111111111111111111111111111"⟩
    derivedPublicKeyStr := "ed25519:11111111111111111111111111111111"
    ledger := ["near-1.alice.testnet"]
    boot := ⟨true, true, true⟩
    derivedAccessKey := ⟨7, "11111111111111111111111111111111"⟩
    mpcResponse := [⟨some (List.replicate 64 9)⟩]
    sendResult := ⟨"txhash", 223182562500⟩ }

/-- The yoctoNEAR string `parseNearAmount` yields for `"0.01"`. -/
def ay0 : String := "10000000000000000000000"

/-- 32 zero bytes: what `"111...1"` (32 ones) base58-decodes to. -/
def zeros32 : List Nat := List.replicate 32 0

/-- The MPC public key `env0` makes the flow derive. -/
def mpk0 : PublicKey := ⟨0, zeros32⟩

/-- Like `env0` but the memo, broadcast outcome and MPC answer differ; the
underlying unsigned transaction is unchanged. -/
def env0b : Env :=
  { env0 with
    mpcResponse := [⟨some (List.replicate 64 4)⟩]
    sendResult := ⟨"otherhash", 100⟩ }

/-- A world whose MPC service answers with 3 signature bytes — a byte string
no Ed25519 verifier can accept (valid Ed25519 signatures are 64 bytes). -/
def envShortSig : Env := { env0 with mpcResponse := [⟨some [1, 2, 3]⟩] }

/-- A world whose MPC service answers with 10 signature bytes. -/
def envTenSig : Env := { env0 with mpcResponse := [⟨some (List.replicate 10 7)⟩] }

/-- The zero-amount request of the spec's negative scenario. -/
def req7 : NearTransferRequest := ⟨"receiver.testnet", "0", none⟩

/-- A transaction whose sender key is tagged secp256k1 (key type 1). -/
def txMismatch : Transaction :=
  ⟨"near-1.alice.testnet", ⟨1, List.replicate 64 2⟩, 7, "bob.testnet",
   List.replicate 32 0, [Action.transfer 1]⟩

/-! ## Helper lemmas -/

theorem leBytes_length (w : Nat) : ∀ n, (leBytes w n).length = w := by
  induction w with
  | zero => intro n; rfl
  | succ w ih => intro n; simp [leBytes, ih]

theorem sha256_length (msg : List Nat) : (sha256 msg).length = 32 := by
  simp [sha256, beBytes, leBytes_length]

theorem signEvents_append (a b : List Event) :
    signEvents (a ++ b) = signEvents a ++ signEvents b := by
  simp [signEvents]

theorem sentTxs_append (a b : List Event) :
    sentTxs (a ++ b) = sentTxs a ++ sentTxs b := by
  simp [sentTxs]

theorem signEvents_ensure (L : List String) (e : BootEnv) (id : String)
    (pk : PublicKey) : signEvents (ensureDerivedAccount L e id pk).events = [] := by
  unfold ensureDerivedAccount
  split_ifs <;> simp [signEvents]

theorem sentTxs_ensure (L : List String) (e : BootEnv) (id : String)
    (pk : PublicKey) : sentTxs (ensureDerivedAccount L e id pk).events = [] := by
  unfold ensureDerivedAccount
  split_ifs <;> simp [sentTxs]

/-- Master reduction: under the guards that let the flow reach broadcast, the
whole run is the explicit trace and result below. -/
theorem run_ok (r : NearTransferRequest) (env : Env) (ay : String)
    (bh1 bh2 sigBytes : List Nat) (mpk : PublicKey)
    (h0 : env.accountId ≠ "") (h0p : env.privateKey ≠ "")
    (h1 : parseNearAmount r.amount = .ok (some ay))
    (h2 : baseDecode env.controllerAccessKey.block_hash = some bh1)
    (h3 : publicKeyFromString env.derivedPublicKeyStr = .ok mpk)
    (h4 : (ensureDerivedAccount env.ledger env.boot ("near-1." ++ env.accountId)
            mpk).result = .ok ())
    (h5 : baseDecode env.derivedAccessKey.block_hash = some bh2)
    (h6 : decodeMPC env.mpcResponse = some sigBytes) :
    executeNearTransferWithMPC r env =
      ([Event.accountBalance env.accountId,
        Event.accessKeyQuery env.accountId env.controllerPublicKey,
        Event.mpcGetDerivedPublicKey "near-1" env.accountId]
       ++ (ensureDerivedAccount env.ledger env.boot ("near-1." ++ env.accountId)
            mpk).events
       ++ [Event.accessKeyQuery ("near-1." ++ env.accountId) mpk,
           Event.mpcSign [sha256 (serializeTransaction
             (createTransaction ("near-1." ++ env.accountId) mpk r.to_
               (env.derivedAccessKey.nonce + 1)
               [Action.transfer (strToNat ay)] bh2))],
           Event.sendTransaction (attachSignature
             (createTransaction ("near-1." ++ env.accountId) mpk r.to_
               (env.derivedAccessKey.nonce + 1)
               [Action.transfer (strToNat ay)] bh2) sigBytes)],
       .ok ⟨true, env.sendResult.hash, env.sendResult.gas_burnt, "ed25519", "mpc"⟩) := by
  have hne : ¬(env.accountId = "" ∨ env.privateKey = "") := by simp [h0, h0p]
  simp only [executeNearTransferWithMPC, hne, ite_false, h1, h2, h3, h4, h5, h6,
    if_neg, createTransaction]
  simp [List.append_assoc, createTransaction]

/-- Master reduction for the decode-failure exit: when the MPC answer carries
no signature, the run stops with the source's 'Invalid MPC signature
received' error, after the sign request. -/
theorem run_decode_fail (r : NearTransferRequest) (env : Env) (ay : String)
    (bh1 bh2 : List Nat) (mpk : PublicKey)
    (h0 : env.accountId ≠ "") (h0p : env.privateKey ≠ "")
    (h1 : parseNearAmount r.amount = .ok (some ay))
    (h2 : baseDecode env.controllerAccessKey.block_hash = some bh1)
    (h3 : publicKeyFromString env.derivedPublicKeyStr = .ok mpk)
    (h4 : (ensureDerivedAccount env.ledger env.boot ("near-1." ++ env.accountId)
            mpk).result = .ok ())
    (h5 : baseDecode env.derivedAccessKey.block_hash = some bh2)
    (h6 : decodeMPC env.mpcResponse = none) :
    executeNearTransferWithMPC r env =
      ([Event.accountBalance env.accountId,
        Event.accessKeyQuery env.accountId env.controllerPublicKey,
        Event.mpcGetDerivedPublicKey "near-1" env.accountId]
       ++ (ensureDerivedAccount env.ledger env.boot ("near-1." ++ env.accountId)
            mpk).events
       ++ [Event.accessKeyQuery ("near-1." ++ env.accountId) mpk,
           Event.mpcSign [sha256 (serializeTransaction
             (createTransaction ("near-1." ++ env.accountId) mpk r.to_
               (env.derivedAccessKey.nonce + 1)
               [Action.transfer (strToNat ay)] bh2))]],
       .error .invalidMPCSignature) := by
  have hne : ¬(env.accountId = "" ∨ env.privateKey = "") := by simp [h0, h0p]
  simp only [executeNearTransferWithMPC, hne, ite_false, h1, h2, h3, h4, h5, h6,
    if_neg, createTransaction]
  simp [List.append_assoc, createTransaction]

/-- The payload the flow submits to the MPC service, under the guards that
let it reach the sign step (whether or not the response later decodes). -/
theorem signEvents_run (r : NearTransferRequest) (env : Env) (ay : String)
    (bh1 bh2 : List Nat) (mpk : PublicKey)
    (h0 : env.accountId ≠ "") (h0p : env.privateKey ≠ "")
    (h1 : parseNearAmount r.amount = .ok (some ay))
    (h2 : baseDecode env.controllerAccessKey.block_hash = some bh1)
    (h3 : publicKeyFromString env.derivedPublicKeyStr = .ok mpk)
    (h4 : (ensureDerivedAccount env.ledger env.boot ("near-1." ++ env.accountId)
            mpk).result = .ok ())
    (h5 : baseDecode env.derivedAccessKey.block_hash = some bh2) :
    signEvents (executeNearTransferWithMPC r env).1 =
      [[sha256 (serializeTransaction
        (createTransaction ("near-1." ++ env.accountId) mpk r.to_
          (env.derivedAccessKey.nonce + 1)
          [Action.transfer (strToNat ay)] bh2))]] := by
  rcases hd : decodeMPC env.mpcResponse with _ | bytes
  · rw [run_decode_fail r env ay bh1 bh2 mpk h0 h0p h1 h2 h3 h4 h5 hd]
    simp only [signEvents_append, signEvents_ensure, List.nil_append,
      List.append_nil]
    rfl
  · rw [run_ok r env ay bh1 bh2 bytes mpk h0 h0p h1 h2 h3 h4 h5 hd]
    simp only [signEvents_append, signEvents_ensure, List.nil_append,
      List.append_nil]
    rfl

/-! ## The claims -/

/-- Claim C1 (corrected, counterexample): the MPC signing client attaches and
broadcasts a 3-byte signature — a byte string that no Ed25519 verifier can
accept, since valid Ed25519 signatures are 64 bytes — and the flow still
returns success; no verification step and no `SignatureVerificationFailed`
failure exists. -/
theorem sign_unverifiable_signature_broadcast :
    (executeNearTransferWithMPC req0 envShortSig).2.isOk = true
    ∧ (sentTxs (executeNearTransferWithMPC req0 envShortSig).1).map
        (fun st => st.signature.data) = [[1, 2, 3]]
    ∧ ¬([1, 2, 3] : List Nat).length = 64 :=
  ⟨rfl, rfl, by decide⟩

/-- Claim C1 (amended): the client performs no signature verification at all.
Whenever the MPC response carries any signature bytes, the flow attaches
exactly those bytes and broadcasts them, returning success; the only failure
of the signature-handling step is the presence check modelled by
`decodeMPC`. -/
theorem sign_attaches_decoded_signature_unverified
    (r : NearTransferRequest) (env : Env) (ay : String)
    (bh1 bh2 sigBytes : List Nat) (mpk : PublicKey)
    (h0 : env.accountId ≠ "") (h0p : env.privateKey ≠ "")
    (h1 : parseNearAmount r.amount = .ok (some ay))
    (h2 : baseDecode env.controllerAccessKey.block_hash = some bh1)
    (h3 : publicKeyFromString env.derivedPublicKeyStr = .ok mpk)
    (h4 : (ensureDerivedAccount env.ledger env.boot ("near-1." ++ env.accountId)
            mpk).result = .ok ())
    (h5 : baseDecode env.derivedAccessKey.block_hash = some bh2)
    (h6 : decodeMPC env.mpcResponse = some sigBytes) :
    (executeNearTransferWithMPC r env).2 =
      .ok ⟨true, env.sendResult.hash, env.sendResult.gas_burnt, "ed25519", "mpc"⟩
    ∧ sentTxs (executeNearTransferWithMPC r env).1 =
      [attachSignature
        (createTransaction ("near-1." ++ env.accountId) mpk r.to_
          (env.derivedAccessKey.nonce + 1)
          [Action.transfer (strToNat ay)] bh2) sigBytes] := by
  rw [run_ok r env ay bh1 bh2 sigBytes mpk h0 h0p h1 h2 h3 h4 h5 h6]
  refine ⟨rfl, ?_⟩
  simp only [sentTxs_append, sentTxs_ensure, List.nil_append, List.append_nil]
  rfl

/-- Claim C2 (confirmed): serialization and digesting are pure functions of
the `UnsignedTransaction` value — two flow executions in arbitrary ambient
worlds that build equal unsigned transactions serialize them to identical
bytes and submit identical digests to the MPC service. -/
theorem serialize_digest_deterministic
    (r1 : NearTransferRequest) (e1 : Env) (ay1 : String)
    (b1 c1 : List Nat) (mpk1 : PublicKey)
    (r2 : NearTransferRequest) (e2 : Env) (ay2 : String)
    (b2 c2 : List Nat) (mpk2 : PublicKey)
    (ha0 : e1.accountId ≠ "") (ha0p : e1.privateKey ≠ "")
    (ha1 : parseNearAmount r1.amount = .ok (some ay1))
    (ha2 : baseDecode e1.controllerAccessKey.block_hash = some b1)
    (ha3 : publicKeyFromString e1.derivedPublicKeyStr = .ok mpk1)
    (ha4 : (ensureDerivedAccount e1.ledger e1.boot ("near-1." ++ e1.accountId)
             mpk1).result = .ok ())
    (ha5 : baseDecode e1.derivedAccessKey.block_hash = some c1)
    (hb0 : e2.accountId ≠ "") (hb0p : e2.privateKey ≠ "")
    (hb1 : parseNearAmount r2.amount = .ok (some ay2))
    (hb2 : baseDecode e2.controllerAccessKey.block_hash = some b2)
    (hb3 : publicKeyFromString e2.derivedPublicKeyStr = .ok mpk2)
    (hb4 : (ensureDerivedAccount e2.ledger e2.boot ("near-1." ++ e2.accountId)
             mpk2).result = .ok ())
    (hb5 : baseDecode e2.derivedAccessKey.block_hash = some c2)
    (heq : createTransaction ("near-1." ++ e1.accountId) mpk1 r1.to_
             (e1.derivedAccessKey.nonce + 1)
             [Action.transfer (strToNat ay1)] c1
         = createTransaction ("near-1." ++ e2.accountId) mpk2 r2.to_
             (e2.derivedAccessKey.nonce + 1)
             [Action.transfer (strToNat ay2)] c2) :
    serializeTransaction
      (createTransaction ("near-1." ++ e1.accountId) mpk1 r1.to_
        (e1.derivedAccessKey.nonce + 1) [Action.transfer (strToNat ay1)] c1)
    = serializeTransaction
      (createTransaction ("near-1." ++ e2.accountId) mpk2 r2.to_
        (e2.derivedAccessKey.nonce + 1) [Action.transfer (strToNat ay2)] c2)
    ∧ signEvents (executeNearTransferWithMPC r1 e1).1 =
      signEvents (executeNearTransferWithMPC r2 e2).1 := by
  refine ⟨congrArg serializeTransaction heq, ?_⟩
  rw [signEvents_run r1 e1 ay1 b1 c1 mpk1 ha0 ha0p ha1 ha2 ha3 ha4 ha5,
      signEvents_run r2 e2 ay2 b2 c2 mpk2 hb0 hb0p hb1 hb2 hb3 hb4 hb5, heq]

/-- Claim C3 (confirmed): the digest submitted to the MPC service is exactly
SHA-256 of the canonical serialization of the transaction being signed, and
every submitted digest is 32 bytes long. -/
theorem submitted_digest_is_sha256_of_serialization
    (r : NearTransferRequest) (env : Env) (ay : String)
    (bh1 bh2 : List Nat) (mpk : PublicKey)
    (h0 : env.accountId ≠ "") (h0p : env.privateKey ≠ "")
    (h1 : parseNearAmount r.amount = .ok (some ay))
    (h2 : baseDecode env.controllerAccessKey.block_hash = some bh1)
    (h3 : publicKeyFromString env.derivedPublicKeyStr = .ok mpk)
    (h4 : (ensureDerivedAccount env.ledger env.boot ("near-1." ++ env.accountId)
            mpk).result = .ok ())
    (h5 : baseDecode env.derivedAccessKey.block_hash = some bh2) :
    signEvents (executeNearTransferWithMPC r env).1 =
      [[sha256 (serializeTransaction
        (createTransaction ("near-1." ++ env.accountId) mpk r.to_
          (env.derivedAccessKey.nonce + 1)
          [Action.transfer (strToNat ay)] bh2))]]
    ∧ ∀ pl ∈ signEvents (executeNearTransferWithMPC r env).1,
        ∀ d ∈ pl, d.length = 32 := by
  have key := signEvents_run r env ay bh1 bh2 mpk h0 h0p h1 h2 h3 h4 h5
  refine ⟨key, ?_⟩
  rw [key]
  intro pl hpl d hd
  simp only [List.mem_singleton] at hpl
  subst hpl
  simp only [List.mem_singleton] at hd
  subst hd
  exact sha256_length _

/-- Claim C4 (confirmed): the transaction that is signed and sent is built
from the derived account's access-key state, whose fetch happens after every
bootstrap event and is immediately followed by the MPC sign request; its
nonce is the fetched nonce plus one. -/
theorem signed_tx_uses_fresh_access_key_state
    (r : NearTransferRequest) (env : Env) (ay : String)
    (bh1 bh2 sigBytes : List Nat) (mpk : PublicKey) (mtx : Transaction)
    (h0 : env.accountId ≠ "") (h0p : env.privateKey ≠ "")
    (h1 : parseNearAmount r.amount = .ok (some ay))
    (h2 : baseDecode env.controllerAccessKey.block_hash = some bh1)
    (h3 : publicKeyFromString env.derivedPublicKeyStr = .ok mpk)
    (h4 : (ensureDerivedAccount env.ledger env.boot ("near-1." ++ env.accountId)
            mpk).result = .ok ())
    (h5 : baseDecode env.derivedAccessKey.block_hash = some bh2)
    (h6 : decodeMPC env.mpcResponse = some sigBytes)
    (hmtx : mtx = createTransaction ("near-1." ++ env.accountId) mpk r.to_
              (env.derivedAccessKey.nonce + 1)
              [Action.transfer (strToNat ay)] bh2) :
    (executeNearTransferWithMPC r env).1 =
      [Event.accountBalance env.accountId,
       Event.accessKeyQuery env.accountId env.controllerPublicKey,
       Event.mpcGetDerivedPublicKey "near-1" env.accountId]
      ++ (ensureDerivedAccount env.ledger env.boot ("near-1." ++ env.accountId)
           mpk).events
      ++ [Event.accessKeyQuery ("near-1." ++ env.accountId) mpk,
          Event.mpcSign [sha256 (serializeTransaction mtx)],
          Event.sendTransaction (attachSignature mtx sigBytes)]
    ∧ mtx.nonce = env.derivedAccessKey.nonce + 1
    ∧ mtx.blockHash = bh2 := by
  subst hmtx
  refine ⟨?_, rfl, rfl⟩
  rw [run_ok r env ay bh1 bh2 sigBytes mpk h0 h0p h1 h2 h3 h4 h5 h6]

/-- Claim C5 (corrected, counterexample): the signature attacher validates
nothing — attaching a signature to a transaction whose sender key is tagged
secp256k1 (key type 1) succeeds and produces a signed transaction whose
signature is tagged Ed25519 (key type 0); no `KeyTypeMismatch` failure
exists. -/
theorem attach_accepts_key_type_mismatch :
    (attachSignature txMismatch (List.replicate 64 3)).signature.keyType = 0
    ∧ txMismatch.publicKey.keyType = 1
    ∧ attachSignature txMismatch (List.replicate 64 3) =
        ⟨txMismatch, ⟨0, List.replicate 64 3⟩⟩ :=
  ⟨rfl, rfl, rfl⟩

/-- Claim C5 (amended): attachment is an unvalidated pure constructor whose
signature key-type tag is hard-coded to 0 (Ed25519); every broadcast
signature of the flow carries key type 0, whatever the transaction's sender
key type is. -/
theorem attach_hardcodes_ed25519_key_type
    (r : NearTransferRequest) (env : Env) (ay : String)
    (bh1 bh2 sigBytes : List Nat) (mpk : PublicKey)
    (h0 : env.accountId ≠ "") (h0p : env.privateKey ≠ "")
    (h1 : parseNearAmount r.amount = .ok (some ay))
    (h2 : baseDecode env.controllerAccessKey.block_hash = some bh1)
    (h3 : publicKeyFromString env.derivedPublicKeyStr = .ok mpk)
    (h4 : (ensureDerivedAccount env.ledger env.boot ("near-1." ++ env.accountId)
            mpk).result = .ok ())
    (h5 : baseDecode env.derivedAccessKey.block_hash = some bh2)
    (h6 : decodeMPC env.mpcResponse = some sigBytes) :
    (sentTxs (executeNearTransferWithMPC r env).1).map
      (fun st => st.signature.keyType) = [0] := by
  rw [run_ok r env ay bh1 bh2 sigBytes mpk h0 h0p h1 h2 h3 h4 h5 h6]
  simp only [sentTxs_append, sentTxs_ensure, List.nil_append, List.append_nil]
  rfl

/-- Claim C6 (corrected, counterexample): a 10-byte MPC signature — whose
length is not 64 — passes the decoding step, is attached, and is broadcast;
no `MalformedSignature` length or key-type validation exists. -/
theorem decode_accepts_wrong_length_signature :
    decodeMPC envTenSig.mpcResponse = some (List.replicate 10 7)
    ∧ (executeNearTransferWithMPC req0 envTenSig).2.isOk = true
    ∧ (sentTxs (executeNearTransferWithMPC req0 envTenSig).1).map
        (fun st => st.signature.data.length) = [10] :=
  ⟨rfl, rfl, rfl⟩

/-- Claim C6 (amended): the signature-decoding step fails — with the source's
'Invalid MPC signature received' error — exactly when the MPC response has
no first entry or that entry's signature field is absent; a present
signature of any byte length is accepted. -/
theorem decode_fails_only_on_missing_signature
    (r : NearTransferRequest) (env : Env) (ay : String)
    (bh1 bh2 : List Nat) (mpk : PublicKey)
    (h0 : env.accountId ≠ "") (h0p : env.privateKey ≠ "")
    (h1 : parseNearAmount r.amount = .ok (some ay))
    (h2 : baseDecode env.controllerAccessKey.block_hash = some bh1)
    (h3 : publicKeyFromString env.derivedPublicKeyStr = .ok mpk)
    (h4 : (ensureDerivedAccount env.ledger env.boot ("near-1." ++ env.accountId)
            mpk).result = .ok ())
    (h5 : baseDecode env.derivedAccessKey.block_hash = some bh2) :
    ((executeNearTransferWithMPC r env).2 = .error .invalidMPCSignature
      ↔ decodeMPC env.mpcResponse = none)
    ∧ ∀ bytes, decodeMPC env.mpcResponse = some bytes →
        (executeNearTransferWithMPC r env).2 ≠ .error .invalidMPCSignature := by
  rcases hd : decodeMPC env.mpcResponse with _ | bytes
  · refine ⟨?_, ?_⟩
    · rw [run_decode_fail r env ay bh1 bh2 mpk h0 h0p h1 h2 h3 h4 h5 hd]
      simp
    · intro bytes hb
      cases hb
  · rw [run_ok r env ay bh1 bh2 bytes mpk h0 h0p h1 h2 h3 h4 h5 hd]
    refine ⟨by simp, ?_⟩
    intro bytes2 _
    simp

/-- Claim C7 (corrected, counterexample): a transfer request with amount
`"0"` is not rejected at all — `parseNearAmount` yields the truthy string
`"0"`, the validity guard passes, the flow makes its network calls, and a
zero-deposit transfer is signed and broadcast with a success result. -/
theorem zero_amount_not_rejected :
    (executeNearTransferWithMPC req7 env0).2.isOk = true
    ∧ (sentTxs (executeNearTransferWithMPC req7 env0).1).map
        (fun st => st.transaction.actions) = [[Action.transfer 0]]
    ∧ (executeNearTransferWithMPC req7 env0).1.length = 7
    ∧ parseNearAmount "0" = .ok (some "0") :=
  ⟨rfl, rfl, rfl, rfl⟩

/-- Claim C7 (amended): the only amount validation is the `parseNearAmount`
null check — an empty amount fails with the source's 'Invalid amount' error
— and it runs after the controller balance query, i.e. after a network
call, not before; zero amounts and empty receiver ids pass. -/
theorem invalid_amount_after_balance_query
    (recv : String) (memo : Option String) (env : Env)
    (h0 : env.accountId ≠ "") (h0p : env.privateKey ≠ "") :
    executeNearTransferWithMPC ⟨recv, "", memo⟩ env =
      ([Event.accountBalance env.accountId], .error (.invalidAmount "")) := by
  have hne : ¬(env.accountId = "" ∨ env.privateKey = "") := by simp [h0, h0p]
  simp [executeNearTransferWithMPC, hne, parseNearAmount]

/-- Claim C8 (confirmed): when the first bootstrap call succeeds, a second
call for the same derived account is a pure read — it performs no
create-account call, leaves the ledger unchanged and succeeds — and the two
calls together grow the ledger by at most one account. -/
theorem bootstrap_idempotent (L : List String) (e1 e2 : BootEnv) (id : String)
    (pk : PublicKey)
    (h1 : (ensureDerivedAccount L e1 id pk).result = .ok ())
    (h2 : e2.visibleFirst = true) :
    (ensureDerivedAccount (ensureDerivedAccount L e1 id pk).ledger e2 id
      pk).events = [Event.accountBalance id]
    ∧ (ensureDerivedAccount (ensureDerivedAccount L e1 id pk).ledger e2 id
        pk).ledger = (ensureDerivedAccount L e1 id pk).ledger
    ∧ (ensureDerivedAccount (ensureDerivedAccount L e1 id pk).ledger e2 id
        pk).result = .ok ()
    ∧ createEvents (ensureDerivedAccount (ensureDerivedAccount L e1 id
        pk).ledger e2 id pk).events = []
    ∧ (ensureDerivedAccount L e1 id pk).ledger.length ≤ L.length + 1 := by
  unfold ensureDerivedAccount at h1 ⊢
  by_cases hm : id ∈ L
  · by_cases hv : e1.visibleFirst = true
    · simp [hm, hv, h2, createEvents]
    · simp [hm, hv] at h1
  · by_cases hc : e1.createOk = true
    · by_cases hr : e1.visibleReRead = true
      · simp [hm, hc, hr, h2, createEvents]
      · simp [hm, hc, hr] at h1
    · simp [hm, hc] at h1

/-- Claim C9 (confirmed): after submitting the account creation, the
bootstrapper performs one bounded 3000 ms delay and exactly one re-read; if
the account is still not visible it fails with the source's 'Cannot proceed
without derived account' error (the spec's `BootstrapFailed`) instead of
waiting further — the whole attempt is the explicit four-event trace below. -/
theorem bootstrap_bounded_propagation_failure (L : List String) (e : BootEnv)
    (id : String) (pk : PublicKey)
    (h1 : id ∉ L) (h2 : e.createOk = true) (h3 : e.visibleReRead = false) :
    ensureDerivedAccount L e id pk =
      ⟨id :: L,
       [Event.accountBalance id, Event.createAccount id pk oneNearYocto,
        Event.delay 3000, Event.accountBalance id],
       .error .cannotProceedWithoutDerivedAccount⟩ := by
  unfold ensureDerivedAccount
  simp [h1, h2, h3]

/-- Claim C10 (confirmed): the memo field of the request is never read — two
requests equal in receiver and amount produce byte-for-byte the same trace
and the same result, whatever their memos are. -/
theorem memo_never_influences_flow (r1 r2 : NearTransferRequest) (env : Env)
    (hto : r1.to_ = r2.to_) (ham : r1.amount = r2.amount) :
    executeNearTransferWithMPC r1 env = executeNearTransferWithMPC r2 env := by
  unfold executeNearTransferWithMPC
  rw [hto, ham]

/-! ## Witnesses: the hypothesised claims at concrete inputs -/

/-- `req0` with the memo removed. -/
def req0b : NearTransferRequest := ⟨"receiver.testnet", "0.01", none⟩

/-- The unsigned transaction the flow builds and signs in the world `env0`. -/
def mtx0 : Transaction :=
  createTransaction ("near-1." ++ env0.accountId) mpk0 req0.to_
    (env0.derivedAccessKey.nonce + 1) [Action.transfer (strToNat ay0)] zeros32

/-- The derived account id of the witness worlds. -/
def dId : String := "near-1.alice.testnet"

/-- Bootstrap oracle of a fully cooperative world. -/
def bootE1 : BootEnv := ⟨true, true, true⟩

/-- Bootstrap oracle whose creation path would fail; the account already
existing, it is never taken. -/
def bootE2 : BootEnv := ⟨true, false, false⟩

theorem sign_attaches_decoded_signature_unverified_witness :
    (executeNearTransferWithMPC req0 env0).2 =
      .ok ⟨true, env0.sendResult.hash, env0.sendResult.gas_burnt, "ed25519", "mpc"⟩
    ∧ sentTxs (executeNearTransferWithMPC req0 env0).1 =
      [attachSignature
        (createTransaction ("near-1." ++ env0.accountId) mpk0 req0.to_
          (env0.derivedAccessKey.nonce + 1)
          [Action.transfer (strToNat ay0)] zeros32) (List.replicate 64 9)] :=
  sign_attaches_decoded_signature_unverified req0 env0 ay0 zeros32 zeros32
    (List.replicate 64 9) mpk0 (by decide) (by decide) rfl rfl rfl rfl rfl rfl

theorem serialize_digest_deterministic_witness :
    serializeTransaction
      (createTransaction ("near-1." ++ env0.accountId) mpk0 req0.to_
        (env0.derivedAccessKey.nonce + 1)
        [Action.transfer (strToNat ay0)] zeros32)
    = serializeTransaction
      (createTransaction ("near-1." ++ env0b.accountId) mpk0 req0b.to_
        (env0b.derivedAccessKey.nonce + 1)
        [Action.transfer (strToNat ay0)] zeros32)
    ∧ signEvents (executeNearTransferWithMPC req0 env0).1 =
      signEvents (executeNearTransferWithMPC req0b env0b).1 :=
  serialize_digest_deterministic req0 env0 ay0 zeros32 zeros32 mpk0
    req0b env0b ay0 zeros32 zeros32 mpk0
    (by decide) (by decide) rfl rfl rfl rfl rfl
    (by decide) (by decide) rfl rfl rfl rfl rfl
    rfl

theorem submitted_digest_is_sha256_of_serialization_witness :
    signEvents (executeNearTransferWithMPC req0 env0).1 =
      [[sha256 (serializeTransaction
        (createTransaction ("near-1." ++ env0.accountId) mpk0 req0.to_
          (env0.derivedAccessKey.nonce + 1)
          [Action.transfer (strToNat ay0)] zeros32))]]
    ∧ ∀ pl ∈ signEvents (executeNearTransferWithMPC req0 env0).1,
        ∀ d ∈ pl, d.length = 32 :=
  submitted_digest_is_sha256_of_serialization req0 env0 ay0 zeros32 zeros32
    mpk0 (by decide) (by decide) rfl rfl rfl rfl rfl

theorem signed_tx_uses_fresh_access_key_state_witness :
    (executeNearTransferWithMPC req0 env0).1 =
      [Event.accountBalance env0.accountId,
       Event.accessKeyQuery env0.accountId env0.controllerPublicKey,
       Event.mpcGetDerivedPublicKey "near-1" env0.accountId]
      ++ (ensureDerivedAccount env0.ledger env0.boot
           ("near-1." ++ env0.accountId) mpk0).events
      ++ [Event.accessKeyQuery ("near-1." ++ env0.accountId) mpk0,
          Event.mpcSign [sha256 (serializeTransaction mtx0)],
          Event.sendTransaction (attachSignature mtx0 (List.replicate 64 9))]
    ∧ mtx0.nonce = env0.derivedAccessKey.nonce + 1
    ∧ mtx0.blockHash = zeros32 :=
  signed_tx_uses_fresh_access_key_state req0 env0 ay0 zeros32 zeros32
    (List.replicate 64 9) mpk0 mtx0 (by decide) (by decide)
    rfl rfl rfl rfl rfl rfl rfl

theorem attach_hardcodes_ed25519_key_type_witness :
    (sentTxs (executeNearTransferWithMPC req0 env0).1).map
      (fun st => st.signature.keyType) = [0] :=
  attach_hardcodes_ed25519_key_type req0 env0 ay0 zeros32 zeros32
    (List.replicate 64 9) mpk0 (by decide) (by decide) rfl rfl rfl rfl rfl rfl

theorem decode_fails_only_on_missing_signature_witness :
    ((executeNearTransferWithMPC req0 env0).2 = .error .invalidMPCSignature
      ↔ decodeMPC env0.mpcResponse = none)
    ∧ ∀ bytes, decodeMPC env0.mpcResponse = some bytes →
        (executeNearTransferWithMPC req0 env0).2 ≠ .error .invalidMPCSignature :=
  decode_fails_only_on_missing_signature req0 env0 ay0 zeros32 zeros32 mpk0
    (by decide) (by decide) rfl rfl rfl rfl rfl

theorem invalid_amount_after_balance_query_witness :
    executeNearTransferWithMPC ⟨"receiver.testnet", "", none⟩ env0 =
      ([Event.accountBalance env0.accountId], .error (.invalidAmount "")) :=
  invalid_amount_after_balance_query "receiver.testnet" none env0
    (by decide) (by decide)

theorem bootstrap_idempotent_witness :
    (ensureDerivedAccount (ensureDerivedAccount [dId] bootE1 dId mpk0).ledger
      bootE2 dId mpk0).events = [Event.accountBalance dId]
    ∧ (ensureDerivedAccount (ensureDerivedAccount [dId] bootE1 dId mpk0).ledger
        bootE2 dId mpk0).ledger = (ensureDerivedAccount [dId] bootE1 dId
        mpk0).ledger
    ∧ (ensureDerivedAccount (ensureDerivedAccount [dId] bootE1 dId mpk0).ledger
        bootE2 dId mpk0).result = .ok ()
    ∧ createEvents (ensureDerivedAccount (ensureDerivedAccount [dId] bootE1 dId
        mpk0).ledger bootE2 dId mpk0).events = []
    ∧ (ensureDerivedAccount [dId] bootE1 dId mpk0).ledger.length ≤
        [dId].length + 1 :=
  bootstrap_idempotent [dId] bootE1 bootE2 dId mpk0 rfl rfl

theorem bootstrap_bounded_propagation_failure_witness :
    ensureDerivedAccount [] ⟨false, true, false⟩ dId mpk0 =
      ⟨[dId],
       [Event.accountBalance dId, Event.createAccount dId mpk0 oneNearYocto,
        Event.delay 3000, Event.accountBalance dId],
       .error .cannotProceedWithoutDerivedAccount⟩ :=
  bootstrap_bounded_propagation_failure [] ⟨false, true, false⟩ dId mpk0
    (by decide) rfl rfl

theorem memo_never_influences_flow_witness :
    executeNearTransferWithMPC req0 env0 = executeNearTransferWithMPC req0b env0 :=
  memo_never_influences_flow req0 req0b env0 rfl rfl

end Near
